import Mathlib

/-!
Shallow embedding of `src/plugin.ts` of webpack-module-federation-types-plugin:
the `ModuleFederationTypesPlugin.apply` orchestration, its startup gating, the
compile / download hooks, and the continuous-sync interval scheduler.

External collaborators (type compiler, remote downloader, manifest URL source)
are modelled at their interface boundary: their observable invocations become
events in a trace, and their outcomes are inputs of a run.  Helper modules of
the repository that are not part of the given source (constants, URL
validation) are modelled from the spec and marked as such.
-/

namespace MFTP

/-- Options of ModuleFederationTypesPlugin (`types.ts` collaborator surface):
each field may be absent, matching the optional TS fields. -/
structure ModuleFederationTypesPluginOptions where
  disableTypeCompilation : Option Bool
  disableDownladingRemoteTypes : Option Bool
  downloadTypesWhenIdleIntervalInSeconds : Option Int
deriving Repr, DecidableEq

/-- The `_options` of a configured ModuleFederationPlugin: `name`, `exposes`,
`remotes`.  `exposes`/`remotes` are kept as association lists; only their
presence and values matter to the plugin. -/
structure ModuleFederationPluginOptions where
  name : Option String
  exposes : Option (List (String × String))
  remotes : Option (List (String × String))
deriving Repr, DecidableEq

/-- One entry of `compiler.options.plugins`: its constructor name and, when it
is a ModuleFederationPlugin, its `_options` object. -/
structure WebpackPluginEntry where
  ctorName : String
  federationOptions : Option ModuleFederationPluginOptions
deriving Repr, DecidableEq

/-- All inputs a single `apply` run reads: plugin options, the process
environment, the webpack compiler configuration, the manifest URL source
output, and the outcome the type-compiler collaborator reports. -/
structure RunInput where
  options : Option ModuleFederationTypesPluginOptions
  deploymentEnv : Option String
  remoteManifestUrls : Option (List (String × String))
  mode : Option String
  devServerStaticDirectory : Option String
  outputPath : Option String
  plugins : List WebpackPluginEntry
  compileSuccess : Bool
deriving Repr, DecidableEq

/-- Modelled from the spec: the known downloads-disabled deployment marker
(constant `CLOUDBEDS_DEPLOYMENT_ENV_WITH_DISABLED_REMOTE_TYPES_DOWNLOAD` of the
constants module, which is not part of the given source).  Its exact text is
immaterial to every claim; only equality with `DEPLOYMENT_ENV` is used. -/
def CLOUDBEDS_DEPLOYMENT_ENV_WITH_DISABLED_REMOTE_TYPES_DOWNLOAD : String :=
  "devcloud"

/-- Modelled from the spec: the fixed default idle-sync interval, 60 seconds
(constant `DEFAULT_DOWNLOAD_TYPES_INTERVAL_IN_SECONDS` of the constants
module, which is not part of the given source). -/
def DEFAULT_DOWNLOAD_TYPES_INTERVAL_IN_SECONDS : Int := 60

/-- Modelled from the spec: the fixed default dist directory (constant
`DIR_DIST` of the constants module, which is not part of the given source). -/
def DIR_DIST : String := "dist"

/-- Modelled from the spec: the emitted-types directory name (constant
`DIR_EMITTED_TYPES` of the constants module, which is not part of the given
source). -/
def DIR_EMITTED_TYPES : String := "@mf-types"

/-- Character-list prefix test (used instead of `String.startsWith`, which
does not reduce well in proofs). -/
def strHasPrefix (p s : String) : Bool :=
  p.data.isPrefixOf s.data

/-- Modelled from the spec: URL well-formedness check of the validation helper
(not part of the given source); a valid manifest URL is a well-formed absolute
URL.  The spec treats "http://x/manifest.json" as valid and "not-a-url" as
invalid. -/
def isValidUrl (u : String) : Bool :=
  strHasPrefix "http://" u || strHasPrefix "https://" u

/-- Modelled from the spec: `isEveryUrlValid` of the validation helper (not
part of the given source): every listed URL is well formed. -/
def isEveryUrlValid (urls : List String) : Bool :=
  urls.all isValidUrl

/-- JavaScript `a || b` on an optional string: an absent or empty (falsy)
string falls through to the default. -/
def jsOrString (v : Option String) (d : String) : String :=
  match v with
  | some s => if s = "" then d else s
  | none => d

/-- JavaScript `a || b` on an optional number: an absent or zero (falsy)
number falls through to the default. -/
def jsOrInt (v : Option Int) (d : Int) : Int :=
  match v with
  | some n => if n = 0 then d else n
  | none => d

/-- JavaScript truthiness of an optional boolean (`!!x` / guard position):
absent means false. -/
def optTruthy (v : Option Bool) : Bool := v.getD false

/-- Observable events of one run: logger calls, collaborator invocations
(download, compile, rewrite), and timer operations of the scheduler. -/
inductive Event where
  | logWarn (msg : String)
  | logInfo (msg : String)
  | download
  | compile
  | rewrite
  | clearTimer
  | setTimer (ms : Int)
deriving Repr, DecidableEq

/-- `isCompilationDisabled = !!this.options?.disableTypeCompilation`. -/
def isCompilationDisabled (inp : RunInput) : Bool :=
  optTruthy (inp.options.bind (·.disableTypeCompilation))

/-- `isDownloadDisabled = this.options?.disableDownladingRemoteTypes
?? process.env.DEPLOYMENT_ENV === CLOUDBEDS_...` — the resolved
download-disabled flag: the explicit option when present, else the
environment-marker comparison. -/
def isDownloadDisabled (inp : RunInput) : Bool :=
  match inp.options.bind (·.disableDownladingRemoteTypes) with
  | some b => b
  | none =>
    inp.deploymentEnv == some CLOUDBEDS_DEPLOYMENT_ENV_WITH_DISABLED_REMOTE_TYPES_DOWNLOAD

/-- Truthiness of the raw option `this.options?.disableDownladingRemoteTypes`
alone, as tested by the two download guards in the source. -/
def optionDisableDownloadTruthy (inp : RunInput) : Bool :=
  optTruthy (inp.options.bind (·.disableDownladingRemoteTypes))

/-- `compiler.options.plugins.find(p => p.constructor.name ===
'ModuleFederationPlugin')?._options`. -/
def federationPluginOptions (inp : RunInput) : Option ModuleFederationPluginOptions :=
  (inp.plugins.find? (fun p => p.ctorName == "ModuleFederationPlugin")).bind
    (·.federationOptions)

/-- `Object.values(remoteManifestUrls || \x7b\x7d)`. -/
def manifestUrlValues (inp : RunInput) : List String :=
  (inp.remoteManifestUrls.getD []).map (·.2)

/-- `!federationPluginOptions?.name`: the name is absent or empty. -/
def nameFalsy (n : Option String) : Bool :=
  match n with
  | none => true
  | some s => s == ""

/-- `distPath = compiler.options.devServer?.static?.directory ||
compiler.options.output?.path || DIR_DIST`. -/
def distPath (inp : RunInput) : String :=
  jsOrString inp.devServerStaticDirectory (jsOrString inp.outputPath DIR_DIST)

/-- `outFile = path.join(distPath, DIR_EMITTED_TYPES, 'index.d.ts')`. -/
def outFile (inp : RunInput) : String :=
  distPath inp ++ "/" ++ DIR_EMITTED_TYPES ++ "/index.d.ts"

/-- `shouldSyncContinuously = (mode === 'development') &&
(options?.downloadTypesWhenIdleIntervalInSeconds !== -1)`. -/
def shouldSyncContinuously (inp : RunInput) : Bool :=
  (inp.mode == some "development") &&
    (inp.options.bind (·.downloadTypesWhenIdleIntervalInSeconds) != some (-1))

/-- `downloadTypesWhenIdleIntervalInSeconds =
options?.downloadTypesWhenIdleIntervalInSeconds ||
DEFAULT_DOWNLOAD_TYPES_INTERVAL_IN_SECONDS`. -/
def idleIntervalSeconds (inp : RunInput) : Int :=
  jsOrInt (inp.options.bind (·.downloadTypesWhenIdleIntervalInSeconds))
    DEFAULT_DOWNLOAD_TYPES_INTERVAL_IN_SECONDS

/-- `compileTypesHook`: invoke the compiler collaborator; on success run the
rewrite pass, on failure log a warning (with the logger hint) and skip the
rewrite. -/
def compileTypesHook (inp : RunInput) : List Event :=
  if inp.compileSuccess then
    [Event.compile, Event.rewrite]
  else
    [Event.compile, Event.logWarn "Failed to compile types for exposed modules."]

/-- `downloadTypesHook`: invoke the remote downloader collaborator. -/
def downloadTypesHook : List Event :=
  [Event.download]

/-- The callback passed to `setInterval`: log, then redownload remote types. -/
def intervalOnFire : List Event :=
  [Event.logInfo "Downloading types every interval seconds", Event.download]

/-- Scheduler state: the set of live recurring timers (by id), the value of
the `recompileIntervalId` closure variable, and a fresh-id counter. -/
structure SchedState where
  live : List Nat
  recompileIntervalId : Option Nat
  nextId : Nat
deriving Repr, DecidableEq

/-- Scheduler state at startup: no timer, `recompileIntervalId` undefined. -/
def initSched : SchedState := ⟨[], none, 0⟩

/-- `clearInterval(recompileIntervalId)`: a no-op when the variable is still
undefined, otherwise kills that timer. -/
def clearIntervalJs (st : SchedState) : SchedState :=
  match st.recompileIntervalId with
  | none => st
  | some id => { st with live := st.live.filter (fun x => x != id) }

/-- Guard of the download sections: `remotes &&
!this.options?.disableDownladingRemoteTypes` (note: the raw option, not the
resolved `isDownloadDisabled`). -/
def downloadSectionGuard (inp : RunInput) (fed : ModuleFederationPluginOptions) : Bool :=
  fed.remotes.isSome && !(optionDisableDownloadTruthy inp)

/-- `compileTypesContinuouslyHook`: when remotes are present and the raw
download-disable option is not set, clear any prior interval and start a new
one (every `1000 * idleIntervalSeconds` ms), then always compile. -/
def compileTypesContinuouslyHook (inp : RunInput) (fed : ModuleFederationPluginOptions)
    (st : SchedState) : SchedState × List Event :=
  if downloadSectionGuard inp fed then
    let st1 := clearIntervalJs st
    let st2 : SchedState :=
      { live := st1.live ++ [st1.nextId]
        recompileIntervalId := some st1.nextId
        nextId := st1.nextId + 1 }
    (st2, [Event.clearTimer, Event.setTimer (1000 * idleIntervalSeconds inp)]
            ++ compileTypesHook inp)
  else
    (st, compileTypesHook inp)

/-- One firing of the `afterEmit` tap: log, then run
`compileTypesContinuouslyHook`. -/
def afterEmitFire (inp : RunInput) (fed : ModuleFederationPluginOptions)
    (st : SchedState) : SchedState × List Event :=
  let r := compileTypesContinuouslyHook inp fed st
  (r.1, Event.logInfo "Compiling types on afterEmit event" :: r.2)

/-- Result of one `apply` run: the startup event trace, whether the
`afterEmit` hook was registered, and the computed output file (absent when the
plugin disabled itself before computing it). -/
structure ApplyResult where
  trace : List Event
  afterEmitTapped : Bool
  outFile : Option String
deriving Repr, DecidableEq

/-- The startup download section of `apply`: `if (remotes &&
!this.options?.disableDownladingRemoteTypes) \x7b log; await downloadTypesHook()
\x7d`. -/
def startupEvents (inp : RunInput) (fed : ModuleFederationPluginOptions) : List Event :=
  if fed.remotes.isSome && !(optionDisableDownloadTruthy inp) then
    Event.logInfo "Downloading types on startup" :: downloadTypesHook
  else []

/-- The compile section of `apply`: when exposes are present and compilation
is enabled, either register the `afterEmit` tap (continuous mode: the `true`
flag, no startup events besides the tap) or compile once on startup. -/
def compilePart (inp : RunInput) (fed : ModuleFederationPluginOptions) :
    List Event × Bool :=
  if fed.exposes.isSome && !(isCompilationDisabled inp) then
    if shouldSyncContinuously inp then ([], true)
    else (Event.logInfo "Compile types on startup only" :: compileTypesHook inp, false)
  else ([], false)

/-- The `apply` method of ModuleFederationTypesPlugin, as a function from a
run input to its startup trace, hook registration, and output target. -/
def apply (inp : RunInput) : ApplyResult :=
  if !isEveryUrlValid (manifestUrlValues inp) then
    ⟨[Event.logWarn "One or more remote manifest URLs are invalid:",
      Event.logInfo "Plugin disabled"], false, none⟩
  else if isCompilationDisabled inp && isDownloadDisabled inp then
    ⟨[Event.logInfo
        "Plugin disabled as both type compilation and download features are turned off"],
      false, none⟩
  else
    match federationPluginOptions inp with
    | none =>
      ⟨[Event.logInfo
          "Plugin disabled as ModuleFederationPlugin is not configured properly. The name option is missing."],
        false, none⟩
    | some fed =>
      if nameFalsy fed.name then
        ⟨[Event.logInfo
            "Plugin disabled as ModuleFederationPlugin is not configured properly. The name option is missing."],
          false, none⟩
      else
        ⟨startupEvents inp fed ++ (compilePart inp fed).1, (compilePart inp fed).2,
          some (outFile inp)⟩

/-- Scheduler state after `n` firings of the registered `afterEmit` tap (each
build completion re-arms the interval), starting from the startup state, with
the accumulated event trace. -/
def buildsAfter (inp : RunInput) (fed : ModuleFederationPluginOptions) :
    Nat → SchedState × List Event
  | 0 => (initSched, [])
  | n + 1 =>
    let p := buildsAfter inp fed n
    let f := afterEmitFire inp fed p.1
    (f.1, p.2 ++ f.2)

/-- End-to-end trace of one run: the startup trace of `apply` followed by the
events of `n` build-completion firings (which occur only when the `afterEmit`
hook was registered). -/
def runStartupAndBuilds (inp : RunInput) (n : Nat) : List Event :=
  (apply inp).trace ++
    (if (apply inp).afterEmitTapped then
      match federationPluginOptions inp with
      | some fed => (buildsAfter inp fed n).2
      | none => []
    else [])

/-- All live timers fire at one interval boundary: each produces one
`intervalOnFire` event block. -/
def fireBoundary (st : SchedState) : List Event :=
  (st.live.map (fun _ => intervalOnFire)).flatten

/-- Scheduler state after `n` consecutive invocations of
`compileTypesContinuouslyHook` (re-arm calls) from the startup state. -/
def armN (inp : RunInput) (fed : ModuleFederationPluginOptions) : Nat → SchedState
  | 0 => initSched
  | n + 1 => (compileTypesContinuouslyHook inp fed (armN inp fed n)).1

/-- Number of `setTimer` events in a trace. -/
def setTimerCount (l : List Event) : Nat :=
  (l.filter (fun e => match e with | Event.setTimer _ => true | _ => false)).length

/-- Single-timer well-formedness of the scheduler state: at most one live
timer, and every live timer is the one `recompileIntervalId` refers to. -/
def SchedWF (st : SchedState) : Prop :=
  st.live.length ≤ 1 ∧ ∀ x ∈ st.live, st.recompileIntervalId = some x

/-- A federation configuration with both an exposed module and a remote. -/
def fedBoth : ModuleFederationPluginOptions :=
  ⟨some "app1", some [("./Button", "Button")], some [("app2", "app2@http://apps.net/app2/remoteEntry.js")]⟩

/-- A webpack plugin list holding one properly configured
ModuleFederationPlugin. -/
def pluginsBoth : List WebpackPluginEntry :=
  [⟨"ModuleFederationPlugin", some fedBoth⟩]

/-- A well-formed manifest URL map for the remote `app2`. -/
def urlsOk : Option (List (String × String)) :=
  some [("app2", "https://apps.net/app2/manifest.json")]

/-- Development-mode run: no plugin options, valid URLs, remotes and exposes
both configured, compiler succeeding. -/
def devInput : RunInput :=
  ⟨none, none, urlsOk, some "development", none, none, pluginsBoth, true⟩

/-- One-shot (non-development) run with remotes and exposes configured. -/
def oneShotInput : RunInput :=
  ⟨none, none, urlsOk, none, none, none, pluginsBoth, true⟩

/-- Run with no explicit download option and the deployment environment set to
the downloads-disabled marker. -/
def envKillInput : RunInput :=
  ⟨none, some CLOUDBEDS_DEPLOYMENT_ENV_WITH_DISABLED_REMOTE_TYPES_DOWNLOAD,
    urlsOk, none, none, none, pluginsBoth, true⟩

/-- Development-mode run with empty explicit options and the deployment
environment set to the downloads-disabled marker. -/
def envKillDevInput : RunInput :=
  ⟨some ⟨none, none, none⟩,
    some CLOUDBEDS_DEPLOYMENT_ENV_WITH_DISABLED_REMOTE_TYPES_DOWNLOAD,
    urlsOk, some "development", none, none, pluginsBoth, true⟩

/-- Run whose only manifest URL is malformed. -/
def invalidUrlInput : RunInput :=
  ⟨none, none, some [("app2", "not-a-url")], none, none, none, pluginsBoth, true⟩

/-- One-shot run in which the compiler collaborator fails. -/
def failCompileInput : RunInput :=
  ⟨none, none, urlsOk, none, none, none, pluginsBoth, false⟩

/-- Development-mode run with the interval option set to the sentinel -1. -/
def sentinelInput : RunInput :=
  ⟨some ⟨none, none, some (-1)⟩, none, urlsOk, some "development", none, none,
    pluginsBoth, true⟩

/-- Run with both a dev-server static directory and a build output path
configured. -/
def devDirInput : RunInput :=
  ⟨none, none, urlsOk, none, some "public", some "build", pluginsBoth, true⟩

lemma count_compile_compileTypesHook (inp : RunInput) :
    (compileTypesHook inp).count Event.compile = 1 := by
  unfold compileTypesHook; split <;> rfl

lemma count_download_compileTypesHook (inp : RunInput) :
    (compileTypesHook inp).count Event.download = 0 := by
  unfold compileTypesHook; split <;> rfl

lemma download_not_mem_compileTypesHook (inp : RunInput) :
    Event.download ∉ compileTypesHook inp := by
  unfold compileTypesHook; split <;> decide

lemma setTimer_not_mem_compileTypesHook (inp : RunInput) (ms : Int) :
    Event.setTimer ms ∉ compileTypesHook inp := by
  unfold compileTypesHook; split <;> simp

lemma setTimerCount_compileTypesHook (inp : RunInput) :
    setTimerCount (compileTypesHook inp) = 0 := by
  unfold compileTypesHook setTimerCount; split <;> rfl

lemma setTimerCount_append (l₁ l₂ : List Event) :
    setTimerCount (l₁ ++ l₂) = setTimerCount l₁ + setTimerCount l₂ := by
  unfold setTimerCount
  rw [List.filter_append, List.length_append]

lemma count_compile_continuouslyHook (inp : RunInput)
    (fed : ModuleFederationPluginOptions) (st : SchedState) :
    (compileTypesContinuouslyHook inp fed st).2.count Event.compile = 1 := by
  unfold compileTypesContinuouslyHook
  split
  · simpa using count_compile_compileTypesHook inp
  · simpa using count_compile_compileTypesHook inp

lemma download_not_mem_continuouslyHook (inp : RunInput)
    (fed : ModuleFederationPluginOptions) (st : SchedState) :
    Event.download ∉ (compileTypesContinuouslyHook inp fed st).2 := by
  unfold compileTypesContinuouslyHook
  split
  · simpa using download_not_mem_compileTypesHook inp
  · simpa using download_not_mem_compileTypesHook inp

lemma count_compile_buildsAfter (inp : RunInput)
    (fed : ModuleFederationPluginOptions) (n : Nat) :
    (buildsAfter inp fed n).2.count Event.compile = n := by
  induction n with
  | zero => rfl
  | succ k ih =>
    unfold buildsAfter afterEmitFire
    simp [List.count_append, List.count_cons, ih, count_compile_continuouslyHook]

lemma download_not_mem_buildsAfter (inp : RunInput)
    (fed : ModuleFederationPluginOptions) (n : Nat) :
    Event.download ∉ (buildsAfter inp fed n).2 := by
  induction n with
  | zero => simp [buildsAfter]
  | succ k ih =>
    unfold buildsAfter afterEmitFire
    simp only [List.mem_append, List.mem_cons]
    intro h
    rcases h with h | h
    · exact ih h
    · rcases h with h | h
      · exact Event.noConfusion h
      · exact download_not_mem_continuouslyHook inp fed _ h

lemma compile_not_mem_startupEvents (inp : RunInput)
    (fed : ModuleFederationPluginOptions) :
    Event.compile ∉ startupEvents inp fed := by
  unfold startupEvents downloadTypesHook; split <;> decide

lemma setTimerCount_startupEvents (inp : RunInput)
    (fed : ModuleFederationPluginOptions) :
    setTimerCount (startupEvents inp fed) = 0 := by
  unfold startupEvents downloadTypesHook setTimerCount; split <;> rfl

lemma count_download_startupEvents (inp : RunInput)
    (fed : ModuleFederationPluginOptions) :
    (startupEvents inp fed).count Event.download
      = (if downloadSectionGuard inp fed then 1 else 0) := by
  unfold startupEvents downloadTypesHook downloadSectionGuard; split <;> rfl

lemma download_not_mem_compilePart (inp : RunInput)
    (fed : ModuleFederationPluginOptions) :
    Event.download ∉ (compilePart inp fed).1 := by
  unfold compilePart
  split
  · split
    · simp
    · simpa using download_not_mem_compileTypesHook inp
  · simp

lemma setTimerCount_compilePart (inp : RunInput)
    (fed : ModuleFederationPluginOptions) :
    setTimerCount (compilePart inp fed).1 = 0 := by
  unfold compilePart
  split
  · split
    · rfl
    · show setTimerCount (_ :: compileTypesHook inp) = 0
      have h := setTimerCount_compileTypesHook inp
      unfold setTimerCount at h ⊢
      simpa using h
  · rfl

lemma count_compile_compilePart_le (inp : RunInput)
    (fed : ModuleFederationPluginOptions) :
    (compilePart inp fed).1.count Event.compile ≤ 1 := by
  unfold compilePart
  split
  · split
    · simp
    · simp [List.count_cons, count_compile_compileTypesHook]
  · simp

lemma compilePart_tapped_nil (inp : RunInput)
    (fed : ModuleFederationPluginOptions)
    (h : (compilePart inp fed).2 = true) : (compilePart inp fed).1 = [] := by
  unfold compilePart at h ⊢
  split at h
  · split at h
    · simp_all
    · simp_all
  · simp_all

lemma apply_trace_split (inp : RunInput) :
    ∃ s c : List Event,
      (apply inp).trace = s ++ c ∧
      Event.compile ∉ s ∧
      Event.download ∉ c ∧
      setTimerCount s = 0 ∧ setTimerCount c = 0 ∧
      c.count Event.compile ≤ 1 ∧
      ((apply inp).afterEmitTapped = true → c = []) := by
  unfold apply
  split
  · exact ⟨[Event.logWarn "One or more remote manifest URLs are invalid:",
      Event.logInfo "Plugin disabled"], [], by simp, by decide, by decide, rfl, rfl,
      by decide, fun h => by simp at h⟩
  · split
    · exact ⟨[Event.logInfo
        "Plugin disabled as both type compilation and download features are turned off"],
        [], by simp, by decide, by decide, rfl, rfl, by decide, fun h => by simp at h⟩
    · split
      · exact ⟨[Event.logInfo
          "Plugin disabled as ModuleFederationPlugin is not configured properly. The name option is missing."],
          [], by simp, by decide, by decide, rfl, rfl, by decide, fun h => by simp at h⟩
      · split
        · exact ⟨[Event.logInfo
            "Plugin disabled as ModuleFederationPlugin is not configured properly. The name option is missing."],
            [], by simp, by decide, by decide, rfl, rfl, by decide, fun h => by simp at h⟩
        · refine ⟨_, _, rfl, ?_, ?_, ?_, ?_, ?_, ?_⟩
          · exact compile_not_mem_startupEvents inp _
          · exact download_not_mem_compilePart inp _
          · exact setTimerCount_startupEvents inp _
          · exact setTimerCount_compilePart inp _
          · exact count_compile_compilePart_le inp _
          · exact compilePart_tapped_nil inp _

lemma schedWF_init : SchedWF initSched :=
  ⟨Nat.zero_le 1, fun x hx => absurd hx (List.not_mem_nil x)⟩

lemma clearIntervalJs_live (st : SchedState) (h : SchedWF st) :
    (clearIntervalJs st).live = [] := by
  obtain ⟨hlen, hall⟩ := h
  unfold clearIntervalJs
  cases hid : st.recompileIntervalId with
  | none =>
    cases hl : st.live with
    | nil => rfl
    | cons a t =>
      exfalso
      have := hall a (by rw [hl]; exact List.mem_cons_self a t)
      rw [hid] at this
      exact Option.noConfusion this
  | some id =>
    show st.live.filter (fun x => x != id) = []
    rw [List.filter_eq_nil_iff]
    intro a ha
    have := hall a ha
    rw [hid] at this
    have hia : id = a := Option.some.inj this
    subst hia
    simp

lemma continuouslyHook_state (inp : RunInput) (fed : ModuleFederationPluginOptions)
    (st : SchedState) (h : SchedWF st) :
    SchedWF (compileTypesContinuouslyHook inp fed st).1 ∧
    (downloadSectionGuard inp fed = true →
      (compileTypesContinuouslyHook inp fed st).1.live.length = 1) := by
  have hcl := clearIntervalJs_live st h
  unfold compileTypesContinuouslyHook
  split
  · simp only [hcl, List.nil_append]
    refine ⟨⟨?_, ?_⟩, ?_⟩
    · simp
    · intro x hx
      simp only [List.mem_singleton] at hx
      rw [hx]
    · intro _
      simp
  · rename_i hg
    exact ⟨h, fun hc => absurd hc hg⟩

lemma armN_wf (inp : RunInput) (fed : ModuleFederationPluginOptions) :
    ∀ n, SchedWF (armN inp fed n)
  | 0 => schedWF_init
  | n + 1 => (continuouslyHook_state inp fed _ (armN_wf inp fed n)).1

lemma fireBoundary_counts_aux (l : List Nat) :
    ((l.map (fun _ => intervalOnFire)).flatten.count Event.download = l.length) ∧
    ((l.map (fun _ => intervalOnFire)).flatten.count Event.compile = 0) := by
  induction l with
  | nil => exact ⟨rfl, rfl⟩
  | cons a t ih =>
    simp only [List.map_cons, List.flatten_cons, List.count_append, List.length_cons]
    constructor
    · rw [ih.1]
      show 1 + t.length = t.length + 1
      omega
    · rw [ih.2]
      rfl

lemma armN_succ_live_length (inp : RunInput) (fed : ModuleFederationPluginOptions)
    (N : Nat) (h : downloadSectionGuard inp fed = true) :
    (armN inp fed (N + 1)).live.length = 1 := by
  have := (continuouslyHook_state inp fed (armN inp fed N) (armN_wf inp fed N)).2 h
  simpa [armN] using this

/-- C8: when the compiler collaborator reports failure the hook logs a
warning, skips the rewrite pass, and still produces its (non-aborting) trace;
the rewrite pass is invoked exactly when the compiler reports success. -/
theorem c8_compile_failure_skips_rewrite (inp : RunInput) :
    (Event.rewrite ∈ compileTypesHook inp ↔ inp.compileSuccess = true) ∧
    (inp.compileSuccess = false →
      Event.logWarn "Failed to compile types for exposed modules."
          ∈ compileTypesHook inp ∧
      Event.rewrite ∉ compileTypesHook inp ∧
      (compileTypesHook inp).count Event.compile = 1) := by
  unfold compileTypesHook
  rcases Bool.eq_false_or_eq_true inp.compileSuccess with h | h <;> rw [h] <;> decide

/-- Witness for C8 at a concrete failing-compiler run. -/
theorem c8_witness :
    Event.logWarn "Failed to compile types for exposed modules."
        ∈ compileTypesHook failCompileInput ∧
    Event.rewrite ∉ compileTypesHook failCompileInput ∧
    (compileTypesHook failCompileInput).count Event.compile = 1 :=
  (c8_compile_failure_skips_rewrite failCompileInput).2 rfl

/-- C4: whenever any configured manifest URL is malformed, the run logs the
invalid-URL warning and the disable diagnostic, registers no hook, and
performs zero download calls and zero compile calls, whatever else is
configured. -/
theorem c4_invalid_urls_disable_all (inp : RunInput) (n : Nat)
    (h : isEveryUrlValid (manifestUrlValues inp) = false) :
    (apply inp).trace = [Event.logWarn "One or more remote manifest URLs are invalid:",
      Event.logInfo "Plugin disabled"] ∧
    (apply inp).afterEmitTapped = false ∧
    (runStartupAndBuilds inp n).count Event.download = 0 ∧
    (runStartupAndBuilds inp n).count Event.compile = 0 := by
  have htr : apply inp = ⟨[Event.logWarn "One or more remote manifest URLs are invalid:",
      Event.logInfo "Plugin disabled"], false, none⟩ := by
    unfold apply
    rw [h]
    rfl
  have hrun : runStartupAndBuilds inp n =
      [Event.logWarn "One or more remote manifest URLs are invalid:",
        Event.logInfo "Plugin disabled"] := by
    unfold runStartupAndBuilds
    rw [htr]
    simp
  refine ⟨by rw [htr], by rw [htr], ?_, ?_⟩ <;> rw [hrun] <;> rfl

/-- Witness for C4 at a concrete run whose only manifest URL is "not-a-url". -/
theorem c4_witness :
    (apply invalidUrlInput).trace
        = [Event.logWarn "One or more remote manifest URLs are invalid:",
           Event.logInfo "Plugin disabled"] ∧
    (apply invalidUrlInput).afterEmitTapped = false ∧
    (runStartupAndBuilds invalidUrlInput 2).count Event.download = 0 ∧
    (runStartupAndBuilds invalidUrlInput 2).count Event.compile = 0 :=
  c4_invalid_urls_disable_all invalidUrlInput 2 (by decide)

/-- C1 (code behavior at the failing input): with no explicit download option
and `DEPLOYMENT_ENV` equal to the downloads-disabled marker, the resolved
`isDownloadDisabled` flag is true, yet the startup download still runs and the
guard arming the idle-interval redownload still passes, because both guards
test only the raw option. -/
theorem c1_env_kill_switch_not_honored :
    isDownloadDisabled envKillInput = true ∧
    Event.download ∈ (apply envKillInput).trace ∧
    downloadSectionGuard envKillInput fedBoth = true ∧
    (fireBoundary (armN envKillInput fedBoth 1)).count Event.download = 1 := by
  decide

/-- C5 (code behavior at the failing input): a configuration that passes all
earlier gates, with download disabled by the environment marker (resolved
`isDownloadDisabled = true`) and compilation enabled, still performs the
startup download — the download gate tests the raw option instead of the
resolved flag.  The compile half behaves as claimed (exposes present and
compilation enabled activate the compile flow). -/
theorem c5_download_gate_ignores_resolved_flag :
    isDownloadDisabled envKillDevInput = true ∧
    isCompilationDisabled envKillDevInput = false ∧
    (apply envKillDevInput).trace.count Event.download = 1 ∧
    (apply envKillDevInput).afterEmitTapped = true := by
  decide

/-- Counterexample to C2 as stated: with the timer armed once (one live
timer), a firing of the interval performs one download and zero compiles —
the fired callback does not trigger a fresh compile. -/
theorem c2_counterexample :
    (armN devInput fedBoth 1).live.length = 1 ∧
    (fireBoundary (armN devInput fedBoth 1)).count Event.compile = 0 ∧
    (fireBoundary (armN devInput fedBoth 1)).count Event.download = 1 := by
  decide

/-- C2 (amended): every firing of the armed idle-interval timer invokes the
remote-type download exactly once and performs no compile; the recompile is
driven by the build-completion signal, not by the interval firing. -/
theorem c2_fire_downloads_only (inp : RunInput)
    (fed : ModuleFederationPluginOptions) (N : Nat)
    (h : downloadSectionGuard inp fed = true) :
    (fireBoundary (armN inp fed (N + 1))).count Event.download = 1 ∧
    (fireBoundary (armN inp fed (N + 1))).count Event.compile = 0 := by
  have h1 := armN_succ_live_length inp fed N h
  constructor
  · have := (fireBoundary_counts_aux (armN inp fed (N + 1)).live).1
    unfold fireBoundary
    rw [this, h1]
  · have := (fireBoundary_counts_aux (armN inp fed (N + 1)).live).2
    unfold fireBoundary
    rw [this]

/-- Witness for C2 (amended) at a concrete development run. -/
theorem c2_witness :
    (fireBoundary (armN devInput fedBoth 1)).count Event.download = 1 ∧
    (fireBoundary (armN devInput fedBoth 1)).count Event.compile = 0 :=
  c2_fire_downloads_only devInput fedBoth 0 rfl

/-- Counterexample to C3 as stated: a development run with valid URLs,
remotes, exposes, and download enabled registers the build-completion hook
but performs zero compiles during startup — no immediate compile happens
before the first build-completion signal. -/
theorem c3_counterexample :
    shouldSyncContinuously devInput = true ∧
    downloadSectionGuard devInput fedBoth = true ∧
    (apply devInput).afterEmitTapped = true ∧
    (apply devInput).trace.count Event.compile = 0 := by
  decide

/-- C3 (amended): when the gates pass, continuous mode is applicable and the
compile flow is active, the controller only registers the build-completion
hook during startup (no startup compile); the first compile occurs in the
first build-completion firing. -/
theorem c3_continuous_mode_defers_compile (inp : RunInput)
    (fed : ModuleFederationPluginOptions)
    (hvalid : isEveryUrlValid (manifestUrlValues inp) = true)
    (hfed : federationPluginOptions inp = some fed)
    (hname : nameFalsy fed.name = false)
    (hexp : fed.exposes.isSome = true)
    (hcomp : isCompilationDisabled inp = false)
    (hsync : shouldSyncContinuously inp = true) :
    (apply inp).afterEmitTapped = true ∧
    (apply inp).trace.count Event.compile = 0 ∧
    (runStartupAndBuilds inp 1).count Event.compile = 1 := by
  have happ : apply inp = ⟨startupEvents inp fed ++ (compilePart inp fed).1,
      (compilePart inp fed).2, some (outFile inp)⟩ := by
    unfold apply
    split
    · rename_i hcond
      rw [hvalid] at hcond
      simp at hcond
    · split
      · rename_i hcond
        rw [hcomp] at hcond
        simp at hcond
      · split
        · rename_i heq
          rw [hfed] at heq
          cases heq
        · rename_i fed2 heq
          rw [hfed] at heq
          injection heq with heq2
          subst heq2
          split
          · rename_i hn
            rw [hname] at hn
            cases hn
          · rfl
  have hpart : compilePart inp fed = ([], true) := by
    unfold compilePart
    rw [hexp, hcomp, hsync]
    rfl
  refine ⟨?_, ?_, ?_⟩
  · rw [happ, hpart]
  · rw [happ, hpart]
    simp [List.count_eq_zero_of_not_mem (compile_not_mem_startupEvents inp fed)]
  · unfold runStartupAndBuilds
    rw [happ, hpart, hfed]
    simp [List.count_append, count_compile_buildsAfter,
      List.count_eq_zero_of_not_mem (compile_not_mem_startupEvents inp fed)]

/-- Witness for C3 (amended) at a concrete development run. -/
theorem c3_witness :
    (apply devInput).afterEmitTapped = true ∧
    (apply devInput).trace.count Event.compile = 0 ∧
    (runStartupAndBuilds devInput 1).count Event.compile = 1 :=
  c3_continuous_mode_defers_compile devInput fedBoth (by decide) (by decide)
    (by decide) (by decide) (by decide) (by decide)

lemma order_append (l₁ l₂ : List Event) (a b : Event) (ha : a ∉ l₂) (hb : b ∉ l₁)
    (i j : Nat) (hia : (l₁ ++ l₂)[i]? = some a) (hjb : (l₁ ++ l₂)[j]? = some b) :
    i < j := by
  have hi1 : i < l₁.length := by
    by_contra hcon
    push_neg at hcon
    rw [List.getElem?_append_right hcon] at hia
    exact ha (List.getElem?_mem hia)
  have hj1 : l₁.length ≤ j := by
    by_contra hcon
    push_neg at hcon
    rw [List.getElem?_append_left hcon] at hjb
    exact hb (List.getElem?_mem hjb)
  omega

lemma run_split (inp : RunInput) (n : Nat) :
    ∃ s t : List Event, runStartupAndBuilds inp n = s ++ t ∧
      Event.compile ∉ s ∧ Event.download ∉ t := by
  obtain ⟨s, c, htr, hcs, hdc, -, -, -, -⟩ := apply_trace_split inp
  refine ⟨s, c ++ (if (apply inp).afterEmitTapped then
      (match federationPluginOptions inp with
        | some fed => (buildsAfter inp fed n).2
        | none => []) else []), ?_, hcs, ?_⟩
  · unfold runStartupAndBuilds
    rw [htr, List.append_assoc]
  · intro hmem
    rcases List.mem_append.mp hmem with hmem | hmem
    · exact hdc hmem
    · split at hmem
      · split at hmem
        · exact download_not_mem_buildsAfter inp _ n hmem
        · cases hmem
      · cases hmem

/-- C6: in an end-to-end run (startup plus any number of build-completion
firings), every occurrence of the download action strictly precedes every
occurrence of the compile action in the observed trace — the awaited startup
download completes before the first compile begins. -/
theorem c6_download_before_compile (inp : RunInput) (n i j : Nat)
    (hdi : (runStartupAndBuilds inp n)[i]? = some Event.download)
    (hcj : (runStartupAndBuilds inp n)[j]? = some Event.compile) : i < j := by
  obtain ⟨s, t, hst, hcs, hdt⟩ := run_split inp n
  rw [hst] at hdi hcj
  exact order_append s t Event.download Event.compile hdt hcs i j hdi hcj

/-- Witness for C6: in the concrete one-shot run, the startup download sits at
index 1 and the compile at index 3 of the trace, and the theorem yields 1 < 3. -/
theorem c6_witness : (1 : Nat) < 3 :=
  c6_download_before_compile oneShotInput 0 1 3 (by decide) (by decide)

/-- C7: the scheduler keeps the single-timer invariant — after any number of
re-arm calls at most one recurring timer is alive (exactly one once armed at
least once with the download guard passing), each arming cancels the prior
timer before starting the new one, and a single interval boundary fires
exactly one download pass. -/
theorem c7_single_timer_invariant (inp : RunInput)
    (fed : ModuleFederationPluginOptions) (N : Nat)
    (h : downloadSectionGuard inp fed = true) :
    (armN inp fed N).live.length ≤ 1 ∧
    (armN inp fed (N + 1)).live.length = 1 ∧
    (compileTypesContinuouslyHook inp fed (armN inp fed N)).2.take 2
        = [Event.clearTimer, Event.setTimer (1000 * idleIntervalSeconds inp)] ∧
    (fireBoundary (armN inp fed (N + 1))).count Event.download = 1 := by
  refine ⟨(armN_wf inp fed N).1, armN_succ_live_length inp fed N h, ?_, ?_⟩
  · unfold compileTypesContinuouslyHook
    rw [if_pos h]
    rfl
  · have hlen := armN_succ_live_length inp fed N h
    have hcnt := (fireBoundary_counts_aux (armN inp fed (N + 1)).live).1
    unfold fireBoundary
    rw [hcnt, hlen]

/-- Witness for C7 after two consecutive re-arms of the concrete development
run. -/
theorem c7_witness :
    (armN devInput fedBoth 2).live.length ≤ 1 ∧
    (armN devInput fedBoth 3).live.length = 1 ∧
    (compileTypesContinuouslyHook devInput fedBoth (armN devInput fedBoth 2)).2.take 2
        = [Event.clearTimer, Event.setTimer (1000 * idleIntervalSeconds devInput)] ∧
    (fireBoundary (armN devInput fedBoth 3)).count Event.download = 1 :=
  c7_single_timer_invariant devInput fedBoth 2 rfl

lemma shouldSync_false_of_sentinel (inp : RunInput)
    (h : inp.options.bind (fun o => o.downloadTypesWhenIdleIntervalInSeconds)
        = some (-1)) :
    shouldSyncContinuously inp = false := by
  unfold shouldSyncContinuously
  rw [h, bne_self_eq_false, Bool.and_false]

lemma tapped_false_of_not_sync (inp : RunInput)
    (h : shouldSyncContinuously inp = false) :
    (apply inp).afterEmitTapped = false := by
  unfold apply
  split
  · rfl
  · split
    · rfl
    · split
      · rfl
      · split
        · rfl
        · show (compilePart inp _).2 = false
          unfold compilePart
          split
          · rw [h]
            rfl
          · rfl

lemma run_eq_trace_of_not_tapped (inp : RunInput) (n : Nat)
    (h : (apply inp).afterEmitTapped = false) :
    runStartupAndBuilds inp n = (apply inp).trace := by
  unfold runStartupAndBuilds
  rw [h]
  simp

/-- C9: the effective idle-sync interval is the explicit option when present
and nonzero, and 60 seconds otherwise; with the sentinel -1 the
build-completion hook is never registered, no recurring timer is ever
created, and at most one compile happens (on startup). -/
theorem c9_idle_interval_and_sentinel (inp : RunInput) (n : Nat) :
    (∀ v : Int,
      inp.options.bind (fun o => o.downloadTypesWhenIdleIntervalInSeconds) = some v →
      v ≠ 0 → idleIntervalSeconds inp = v) ∧
    (inp.options.bind (fun o => o.downloadTypesWhenIdleIntervalInSeconds) = none →
      idleIntervalSeconds inp = 60) ∧
    (inp.options.bind (fun o => o.downloadTypesWhenIdleIntervalInSeconds) = some 0 →
      idleIntervalSeconds inp = 60) ∧
    (inp.options.bind (fun o => o.downloadTypesWhenIdleIntervalInSeconds) = some (-1) →
      (apply inp).afterEmitTapped = false ∧
      setTimerCount (runStartupAndBuilds inp n) = 0 ∧
      (runStartupAndBuilds inp n).count Event.compile ≤ 1) := by
  refine ⟨?_, ?_, ?_, ?_⟩
  · intro v hv hne
    unfold idleIntervalSeconds jsOrInt
    rw [hv]
    exact if_neg hne
  · intro hv
    unfold idleIntervalSeconds jsOrInt
    rw [hv]
    rfl
  · intro hv
    unfold idleIntervalSeconds jsOrInt
    rw [hv]
    rfl
  · intro hsent
    have htap := tapped_false_of_not_sync inp (shouldSync_false_of_sentinel inp hsent)
    have hrun := run_eq_trace_of_not_tapped inp n htap
    obtain ⟨s, c, htr, hcs, -, hts, htc, hcc, -⟩ := apply_trace_split inp
    refine ⟨htap, ?_, ?_⟩
    · rw [hrun, htr, setTimerCount_append, hts, htc]
    · rw [hrun, htr, List.count_append,
        List.count_eq_zero_of_not_mem hcs]
      simpa using hcc

/-- Witness for C9 with the sentinel option at a concrete development run. -/
theorem c9_witness :
    (apply sentinelInput).afterEmitTapped = false ∧
    setTimerCount (runStartupAndBuilds sentinelInput 3) = 0 ∧
    (runStartupAndBuilds sentinelInput 3).count Event.compile ≤ 1 :=
  (c9_idle_interval_and_sentinel sentinelInput 3).2.2.2 rfl

lemma apply_outFile_eq (inp : RunInput) (f : String)
    (h : (apply inp).outFile = some f) : f = outFile inp := by
  unfold apply at h
  split at h
  · simp at h
  · split at h
    · simp at h
    · split at h
      · simp at h
      · split at h
        · simp at h
        · exact (Option.some.inj h).symm

/-- C10: whenever a run reaches the output-target computation, the emitted
declaration path is the emitted-types index file under the dev-server static
directory when configured (nonempty), else under the build output path when
configured (nonempty), else under the default dist directory. -/
theorem c10_output_target (inp : RunInput) (f : String)
    (h : (apply inp).outFile = some f) :
    (∀ d, inp.devServerStaticDirectory = some d → d ≠ "" →
        f = d ++ "/" ++ DIR_EMITTED_TYPES ++ "/index.d.ts") ∧
    (∀ p, inp.devServerStaticDirectory = none → inp.outputPath = some p → p ≠ "" →
        f = p ++ "/" ++ DIR_EMITTED_TYPES ++ "/index.d.ts") ∧
    (inp.devServerStaticDirectory = none → inp.outputPath = none →
        f = DIR_DIST ++ "/" ++ DIR_EMITTED_TYPES ++ "/index.d.ts") := by
  have hf := apply_outFile_eq inp f h
  subst hf
  unfold outFile distPath jsOrString
  refine ⟨?_, ?_, ?_⟩
  · intro d hd hne
    rw [hd]
    simp [hne]
  · intro p hd hp hne
    rw [hd, hp]
    simp [hne]
  · intro hd hp
    rw [hd, hp]

/-- Witness for C10: the dev-server static directory wins over the configured
build output path at a concrete run. -/
theorem c10_witness :
    "public/@mf-types/index.d.ts"
      = "public" ++ "/" ++ DIR_EMITTED_TYPES ++ "/index.d.ts" :=
  (c10_output_target devDirInput "public/@mf-types/index.d.ts" (by decide)).1
    "public" rfl (by decide)

end MFTP
